import Mathlib

/-!
# Verification of the Android setup engine (`src/commands/android/index.ts`)

Shallow embedding of the `AndroidSetup` class.  The external world
(filesystem, `which`, `execSync`, the package installer, `mkdirSync`) is
modelled as a record of pure functions (`Env`); the per-run instance state
(`sdkRoot`, the `binaryLocation` cache) is threaded explicitly.  Console
logging is not modelled.  Where observable behaviour matters we keep the
source's control flow branch by branch.
-/

/-! ## String helpers mirroring JavaScript primitives -/

/-- `listStartsWith sub s` : `sub` is a prefix of `s` (on character lists). -/
def listStartsWith : List Char → List Char → Bool
  | [], _ => true
  | _ :: _, [] => false
  | a :: as, b :: bs => a = b && listStartsWith as bs

/-- Helper for `jsIncludes`: does `sub` occur anywhere in the character list? -/
def hasSubstringAux (sub : List Char) : List Char → Bool
  | [] => listStartsWith sub []
  | c :: rest => listStartsWith sub (c :: rest) || hasSubstringAux sub rest

/-- Model of JavaScript `s.includes(sub)`. -/
def jsIncludes (s sub : String) : Bool := hasSubstringAux sub.data s.data

/-- Worker for `jsSplit`.  The `fuel` argument only makes the recursion
structural; every step consumes at least one character, so fuel equal to the
input length never runs out (the `0` case is unreachable then). -/
def splitOnList (sep : List Char) : Nat → List Char → List Char → List (List Char)
  | _, [], acc => [acc.reverse]
  | 0, s, acc => [acc.reverse ++ s]
  | fuel + 1, c :: rest, acc =>
    if listStartsWith sep (c :: rest) && !sep.isEmpty then
      acc.reverse :: splitOnList sep fuel (List.drop (sep.length - 1) rest) []
    else
      splitOnList sep fuel rest (c :: acc)

/-- Model of JavaScript `s.split(sep)` for a non-empty separator: split at
each leftmost non-overlapping occurrence of `sep`, keeping empty pieces. -/
def jsSplit (s sep : String) : List String :=
  (splitOnList sep.data s.data.length s.data []).map (fun cs => String.mk cs)

/-! ## Path helpers (Node `path` module, POSIX-style, no normalisation:
the paths this tool builds never contain `.`/`..` segments or trailing
slashes, so plain slash-joining matches `path.join`). -/

/-- Join two path segments with a slash, ignoring empty segments. -/
def pathJoinTwo (a b : String) : String :=
  if a = "" then b else if b = "" then a else a ++ "/" ++ b

/-- Model of Node `path.join(...parts)`; an all-empty join yields `"."`. -/
def pathJoin (parts : List String) : String :=
  let joined := parts.foldl pathJoinTwo ""
  if joined = "" then "." else joined

/-- Model of Node `path.basename` for the slash-separated paths used here. -/
def pathBasename (p : String) : String :=
  ((jsSplit p "/").getLast?).getD p

/-- Model of Node `path.dirname` for the slash-separated paths used here. -/
def pathDirname (p : String) : String :=
  let parts := jsSplit p "/"
  if parts.length ≤ 1 then "."
  else
    let dir := (parts.dropLast.foldl pathJoinTwo "")
    if dir = "" then "/" else dir

/-! ## Constants and platform tables

`constants.ts` and `utils.ts` are not part of the sources in scope; the
definitions below carry the information the spec states about them. -/

/-- Modelled from the spec: the fixed virtual-device name constant
(`NIGHTWATCH_AVD` from the constants module, not in scope). -/
def NIGHTWATCH_AVD : String := "nightwatch-android-11"

/-- Host platform, derived once at startup. -/
inductive Platform where
  | windows : Platform
  | mac : Platform
  | linux : Platform
deriving DecidableEq

/-- Modelled from the spec: `SDK_BINARY_LOCATIONS` (constants module, not in
scope) — the single canonical install-relative path for each SDK binary. -/
def SDK_BINARY_LOCATIONS (binaryName : String) : String :=
  if binaryName = "sdkmanager" then "cmdline-tools/latest/bin"
  else if binaryName = "avdmanager" then "cmdline-tools/latest/bin"
  else if binaryName = "adb" then "platform-tools"
  else if binaryName = "emulator" then "emulator"
  else ""

/-- Modelled from the spec: `getBinaryNameForOS` (utils module, not in
scope) — the OS-dependent file-name suffix rule for each SDK binary. -/
def getBinaryNameForOS (platform : Platform) (binaryName : String) : String :=
  if platform = Platform.windows then
    if binaryName = "sdkmanager" ∨ binaryName = "avdmanager" then binaryName ++ ".bat"
    else binaryName ++ ".exe"
  else binaryName

/-- Modelled from the spec: `BINARY_TO_PACKAGE_NAME` (constants module, not
in scope) — the fixed identifier-to-installable-package mapping: the
`emulator` and `sdkmanager` binaries, `avdmanager` (superseded by the
cmdline-tools bootstrap when planned), and the virtual device's backing
system-image package (ABI-dependent). -/
def BINARY_TO_PACKAGE_NAME (abi : String) : List (String × String) :=
  [("sdkmanager", "cmdline-tools;latest"),
   ("avdmanager", "cmdline-tools;latest"),
   ("emulator", "emulator"),
   (NIGHTWATCH_AVD, "system-images;android-30;google_apis;" ++ abi)]

/-- The binary-specific smoke-test argument of `checkBinariesWorking`
(`--version` generically, `-version` for emulator, `list avd` for
avdmanager). -/
def smokeCmd (binaryName : String) : String :=
  if binaryName = "emulator" then "-version"
  else if binaryName = "avdmanager" then "list avd"
  else "--version"

/-! ## External world and session state -/

/-- The external collaborators, as pure functions: `fsExists` is
`fs.existsSync`; `whichFound` is a successful `which.sync` PATH lookup;
`exec cwd? cmd` is `execSync` (`none` models a throw: nonzero exit or launch
failure); `installPackages` is `installPackagesUsingSdkManager`; `mkdirOk`
is whether `fs.mkdirSync` succeeds; `abi` is `getAbiForOS()`. -/
structure Env where
  platform : Platform
  abi : String
  fsExists : String → Bool
  whichFound : String → Bool
  exec : Option String → String → Option String
  installPackages : String → List String → Bool
  mkdirOk : String → Bool

/-- The per-run cache `this.binaryLocation` (a string-keyed object).
Updates shadow older bindings; lookups read the newest one, matching
object-key overwrite. -/
abbrev Cache := List (String × String)

/-- Lookup `this.binaryLocation[k]` (`none` = property absent). -/
def cacheGet (c : Cache) (k : String) : Option String :=
  (List.find? (fun p => p.1 = k) c).map (fun p => p.2)

/-- Assignment `this.binaryLocation[k] = v`. -/
def cacheInsert (c : Cache) (k v : String) : Cache :=
  (k, v) :: c

/-- The mutable instance fields of `AndroidSetup` used by the checks:
`sdkRoot` (set once in `run`) and the `binaryLocation` cache. -/
structure AndroidSetup where
  sdkRoot : String
  binaryLocation : Cache
deriving DecidableEq

/-- CLI options consumed by `run` (`this.options`). -/
structure Options where
  help : Bool
  setup : Bool

/-- The resolved configuration record (mode is one of
`'real' | 'emulator' | 'both'` when present). -/
structure SetupConfigs where
  mode : Option String
  browsers : Option String

/-! ## The AndroidSetup methods -/

/-- `getSdkRoot`: returns `ANDROID_HOME` when truthy (defined and
non-empty), `''` otherwise.  No filesystem check is performed. -/
def getSdkRoot (androidHome : Option String) : String :=
  match androidHome with
  | some home => if home = "" then "" else home
  | none => ""

/-- `getBinaryLocation`: look in the SDK subdirectory, then (adb only) the
SDK root, then (adb only) the system PATH (returning the `'PATH'`
sentinel); on success the location is cached; on failure `''` is returned
and nothing is cached. -/
def getBinaryLocation (env : Env) (st : AndroidSetup) (binaryName : String) :
    String × AndroidSetup :=
  let binaryFullName := getBinaryNameForOS env.platform binaryName
  let pathToBinary := pathJoin [st.sdkRoot, SDK_BINARY_LOCATIONS binaryName, binaryFullName]
  if env.fsExists pathToBinary then
    (pathToBinary,
     { st with binaryLocation := cacheInsert st.binaryLocation binaryName pathToBinary })
  else if binaryName = "adb" then
    let adbPath := pathJoin [st.sdkRoot, binaryFullName]
    if env.fsExists adbPath then
      (adbPath,
       { st with binaryLocation := cacheInsert st.binaryLocation binaryName adbPath })
    else if env.whichFound binaryFullName then
      ("PATH",
       { st with binaryLocation := cacheInsert st.binaryLocation binaryName "PATH" })
    else ("", st)
  else ("", st)

/-- Pure mirror of the location `getBinaryLocation` returns: it depends
only on the environment and the SDK root, never on the cache. -/
def locateBinary (env : Env) (sdkRoot binaryName : String) : String :=
  let binaryFullName := getBinaryNameForOS env.platform binaryName
  let pathToBinary := pathJoin [sdkRoot, SDK_BINARY_LOCATIONS binaryName, binaryFullName]
  if env.fsExists pathToBinary then pathToBinary
  else if binaryName = "adb" then
    let adbPath := pathJoin [sdkRoot, binaryFullName]
    if env.fsExists adbPath then adbPath
    else if env.whichFound binaryFullName then "PATH"
    else ""
  else ""

/-- `checkBinariesPresent`: locate each binary in order, collecting the
unlocated ones (the located ones end up in the cache). -/
def checkBinariesPresent (env : Env) (st : AndroidSetup) :
    List String → List String × AndroidSetup
  | [] => ([], st)
  | binaryName :: rest =>
    let r := getBinaryLocation env st binaryName
    let rr := checkBinariesPresent env r.2 rest
    (if r.1 = "" then binaryName :: rr.1 else rr.1, rr.2)

/-- `execBinary`: build the platform-correct command line for a located
binary and run it; a throw of `execSync` (nonzero exit or launch failure)
is caught and normalised to `''`.  Totality of this function is the
embedding of "never propagates an exception". -/
def execBinary (env : Env) (binaryLocation binaryName args : String) : String :=
  if binaryLocation = "PATH" then
    let binaryFullName := getBinaryNameForOS env.platform binaryName
    let cmd := binaryFullName ++ " " ++ args
    match env.exec none cmd with
    | some stdout => stdout
    | none => ""
  else
    let binaryFullName := pathBasename binaryLocation
    let binaryDirPath := pathDirname binaryLocation
    let cmd :=
      if env.platform = Platform.windows then binaryFullName ++ " " ++ args
      else "./" ++ binaryFullName ++ " " ++ args
    match env.exec (some binaryDirPath) cmd with
    | some stdout => stdout
    | none => ""

/-- `checkBinariesWorking`: for each binary take the cached location if it
is truthy (else re-locate), then run the smoke test; a falsy location or
empty output marks the binary non-working. -/
def checkBinariesWorking (env : Env) (st : AndroidSetup) :
    List String → List String × AndroidSetup
  | [] => ([], st)
  | binaryName :: rest =>
    let r :=
      match cacheGet st.binaryLocation binaryName with
      | some loc => if loc = "" then getBinaryLocation env st binaryName else (loc, st)
      | none => getBinaryLocation env st binaryName
    let rr := checkBinariesWorking env r.2 rest
    if r.1 = "" then (binaryName :: rr.1, rr.2)
    else if execBinary env r.1 binaryName (smokeCmd binaryName) = "" then
      (binaryName :: rr.1, rr.2)
    else (rr.1, rr.2)

/-- `verifyAvdPresent`: run `avdmanager list avd` (locating avdmanager
afresh, with output suppressed), split the listing on `'---------'`,
discard records containing `'Error: '`, and report whether some remaining
record contains the fixed AVD name. -/
def verifyAvdPresent (env : Env) (st : AndroidSetup) : Bool × AndroidSetup :=
  let r := getBinaryLocation env st "avdmanager"
  let stdout := execBinary env r.1 "avdmanager" "list avd"
  let workingAvds := (jsSplit stdout "---------").filter (fun avd => !jsIncludes avd "Error: ")
  ((workingAvds.filter (fun avd => jsIncludes avd NIGHTWATCH_AVD)).length != 0, r.2)

/-- Pure mirror of the boolean `verifyAvdPresent` computes. -/
def avdPresentPure (env : Env) (sdkRoot : String) : Bool :=
  let stdout := execBinary env (locateBinary env sdkRoot "avdmanager") "avdmanager" "list avd"
  let workingAvds := (jsSplit stdout "---------").filter (fun avd => !jsIncludes avd "Error: ")
  (workingAvds.filter (fun avd => jsIncludes avd NIGHTWATCH_AVD)).length != 0

/-- `verifyAdbRunning`: locate adb and run `adb devices`; only logging
depends on the outcome, so the observable effect is the cache update. -/
def verifyAdbRunning (env : Env) (st : AndroidSetup) : AndroidSetup :=
  (getBinaryLocation env st "adb").2

/-- `verifySetup`: the four-pass requirement check.  Returns the missing
set (in insertion order: absent binaries, `platforms`, the AVD name,
non-working binaries) together with the updated instance state. -/
def verifySetup (env : Env) (st : AndroidSetup) (setupConfigs : SetupConfigs) :
    List String × AndroidSetup :=
  let requiredBinaries : List String :=
    if setupConfigs.mode = some "real" then ["adb"]
    else ["adb", "avdmanager", "emulator"]
  let rp := checkBinariesPresent env st requiredBinaries
  let missingBinaries := rp.1
  let missing1 := missingBinaries
  let missing2 :=
    if requiredBinaries.contains "emulator" then
      if env.fsExists (pathJoin [st.sdkRoot, "platforms"]) then missing1
      else missing1 ++ ["platforms"]
    else missing1
  let ra := verifyAvdPresent env rp.2
  let missing3 := if ra.1 then missing2 else missing2 ++ [NIGHTWATCH_AVD]
  let binariesPresent := requiredBinaries.filter (fun b => !missingBinaries.contains b)
  let rw :=
    if binariesPresent.length ≠ 0 then
      let rw0 := checkBinariesWorking env ra.2 binariesPresent
      (missing3 ++ rw0.1, rw0.2)
    else (missing3, ra.2)
  let stFinal := if rw.1.length = 0 then verifyAdbRunning env rw.2 else rw.2
  (rw.1, stFinal)

/-- Pure mirror of the missing set `verifySetup` returns: a function of the
environment, the SDK root and the mode only (not of the cache). -/
def verifyMissingPure (env : Env) (sdkRoot : String) (mode : Option String) : List String :=
  let requiredBinaries : List String :=
    if mode = some "real" then ["adb"] else ["adb", "avdmanager", "emulator"]
  let missingBinaries :=
    requiredBinaries.filter (fun b => decide (locateBinary env sdkRoot b = ""))
  let missing2 :=
    if requiredBinaries.contains "emulator" then
      if env.fsExists (pathJoin [sdkRoot, "platforms"]) then missingBinaries
      else missingBinaries ++ ["platforms"]
    else missingBinaries
  let missing3 := if avdPresentPure env sdkRoot then missing2 else missing2 ++ [NIGHTWATCH_AVD]
  let binariesPresent :=
    requiredBinaries.filter (fun b => decide (locateBinary env sdkRoot b ≠ ""))
  if binariesPresent.length ≠ 0 then
    missing3 ++ binariesPresent.filter
      (fun b => decide (execBinary env (locateBinary env sdkRoot b) b (smokeCmd b) = ""))
  else missing3

/-! ## Remediation (`setupAndroid`) -/

/-- The observable remediation steps, in execution order.  `installPackages`
records both the requirement identifiers that were mapped and the package
list handed to the installer; the booleans record each step's outcome. -/
inductive SetupAction where
  | bootstrapCmdlineTools : SetupAction
  | installPackages (requirements packages : List String) (ok : Bool) : SetupAction
  | createPlatformsDir (ok : Bool) : SetupAction
  | createAvd (ok : Bool) : SetupAction
deriving DecidableEq

/-- `indexOf` + `splice(i, 1)`: remove the first occurrence, if any. -/
def removeFirst (l : List String) (x : String) : List String :=
  match l with
  | [] => []
  | a :: rest => if a = x then rest else a :: removeFirst rest x

/-- Does a step's failure count against the overall result?  Package
installation and AVD creation do; the bootstrap download is not validated
and `mkdirSync` failures are swallowed by an empty `catch`. -/
def actionOk : SetupAction → Bool
  | SetupAction.bootstrapCmdlineTools => true
  | SetupAction.installPackages _ _ ok => ok
  | SetupAction.createPlatformsDir _ => true
  | SetupAction.createAvd ok => ok

/-- `setupAndroid`: plan and execute remediation for a missing set.
Returns the overall result, the executed steps in order, and the state. -/
def setupAndroid (env : Env) (st : AndroidSetup) (setupConfigs : SetupConfigs)
    (missingRequirements : List String) : Bool × List SetupAction × AndroidSetup :=
  if missingRequirements.length = 0 then (true, [], st)
  else
    let rs := checkBinariesWorking env st ["sdkmanager"]
    let sdkManagerWorking := rs.1.length = 0
    let bootstrap := ¬ sdkManagerWorking ∨ missingRequirements.contains "avdmanager"
    -- avdmanager is removed from the missing set before a cmdline-tools
    -- bootstrap (the bootstrap supersedes it).
    let missing1 :=
      if bootstrap then removeFirst missingRequirements "avdmanager" else missingRequirements
    let actions0 : List SetupAction := if bootstrap then [SetupAction.bootstrapCmdlineTools] else []
    let table := BINARY_TO_PACKAGE_NAME env.abi
    let reqsToInstall := missing1.filter (fun r => (table.map (fun p => p.1)).contains r)
    let packagesToInstall :=
      reqsToInstall.map (fun b => (((table.find? (fun p => p.1 = b)).map (fun p => p.2)).getD ""))
    let rl := getBinaryLocation env rs.2 "sdkmanager"
    let result0 := env.installPackages rl.1 packagesToInstall
    let actions1 := actions0 ++ [SetupAction.installPackages reqsToInstall packagesToInstall result0]
    let actions2 :=
      if missing1.contains "platforms" then
        actions1 ++ [SetupAction.createPlatformsDir (env.mkdirOk (pathJoin [st.sdkRoot, "platforms"]))]
      else actions1
    let ravd := verifyAvdPresent env rl.2
    let rc :=
      if ravd.1 then (result0, actions2, ravd.2)
      else
        let rloc := getBinaryLocation env ravd.2 "avdmanager"
        let created := execBinary env rloc.1 "avdmanager"
          ("create avd --force --name \"" ++ NIGHTWATCH_AVD ++
           "\" --package \"system-images;android-30;google_apis;" ++ env.abi ++
           "\" --device \"pixel_5\"")
        ((if created = "" then false else result0),
         actions2 ++ [SetupAction.createAvd (decide (created ≠ ""))], rloc.2)
    let stFinal := verifyAdbRunning env rc.2.2
    (rc.1, rc.2.1, stFinal)

/-- `run` (help path, SDK-root resolution, verify, optional setup).  The
second component records whether requirement checking (`verifySetup`)
executed before the run ended. -/
def run (env : Env) (androidHome : Option String) (options : Options)
    (setupConfigs : SetupConfigs) : Bool × Bool :=
  if options.help then (true, false)
  else
    let sdkRoot := getSdkRoot androidHome
    if sdkRoot = "" then (false, false)
    else
      let st : AndroidSetup := { sdkRoot := sdkRoot, binaryLocation := [] }
      let rv := verifySetup env st setupConfigs
      if options.setup then ((setupAndroid env rv.2 setupConfigs rv.1).1, true)
      else if rv.1.length ≠ 0 then (false, true)
      else (true, true)

/-! ## The cache invariant -/

/-- The cache only ever holds truthy locations: each stored value is
non-empty, and is either the `'PATH'` sentinel or a concrete path that the
filesystem reported as existing when it was checked. -/
def cacheOk (env : Env) (c : Cache) : Prop :=
  ∀ p ∈ c, p.2 ≠ "" ∧ (p.2 = "PATH" ∨ env.fsExists p.2 = true)

/-! ## Concrete test environments (used by witnesses and counterexamples) -/

/-- A fresh run state over the SDK root `/sdk` (as `run` constructs it). -/
def st0 : AndroidSetup := { sdkRoot := "/sdk", binaryLocation := [] }

/-- Emulator-mode configuration. -/
def cfgEmulator : SetupConfigs := { mode := some "emulator", browsers := none }

/-- Real-mode configuration. -/
def cfgReal : SetupConfigs := { mode := some "real", browsers := none }

/-- A host on which nothing is installed and every external call fails. -/
def envFail : Env :=
  { platform := Platform.linux
    abi := "x86_64"
    fsExists := fun _ => false
    whichFound := fun _ => false
    exec := fun _ _ => none
    installPackages := fun _ _ => false
    mkdirOk := fun _ => false }

/-- A host with no SDK files at all, but `adb` on the PATH and every
external command succeeding with output that contains the AVD name. -/
def envPathOnly : Env :=
  { platform := Platform.linux
    abi := "x86_64"
    fsExists := fun _ => false
    whichFound := fun _ => true
    exec := fun _ _ => some "nightwatch-android-11 ok"
    installPackages := fun _ _ => true
    mkdirOk := fun _ => true }

/-- A host with working `sdkmanager`/`avdmanager` under `/sdk`, no AVD in
the listing, and succeeding installs/creates. -/
def envSdkOk : Env :=
  { platform := Platform.linux
    abi := "x86_64"
    fsExists := fun p =>
      (p == "/sdk/cmdline-tools/latest/bin/sdkmanager") ||
      (p == "/sdk/cmdline-tools/latest/bin/avdmanager")
    whichFound := fun _ => false
    exec := fun _ cmd => if cmd = "./avdmanager list avd" then some "" else some "ok"
    installPackages := fun _ _ => true
    mkdirOk := fun _ => true }

/-- Like `envSdkOk`, but the AVD already shows up in the listing and
`mkdirSync` always fails. -/
def envMkdirFails : Env :=
  { platform := Platform.linux
    abi := "x86_64"
    fsExists := fun p =>
      (p == "/sdk/cmdline-tools/latest/bin/sdkmanager") ||
      (p == "/sdk/cmdline-tools/latest/bin/avdmanager")
    whichFound := fun _ => false
    exec := fun _ cmd =>
      if cmd = "./avdmanager list avd" then some "AVD: nightwatch-android-11" else some "ok"
    installPackages := fun _ _ => true
    mkdirOk := fun _ => false }

/-- The avdmanager listing of the spec's end-to-end example: an error
record between separators, then a valid record naming the AVD. -/
def exampleListing : String :=
  "Name: other---------Error: corrupted avd---------  Name: nightwatch-android-11---------"

/-- A host whose `avdmanager` produces `exampleListing`. -/
def envListing : Env :=
  { platform := Platform.linux
    abi := "x86_64"
    fsExists := fun p => p == "/sdk/cmdline-tools/latest/bin/avdmanager"
    whichFound := fun _ => false
    exec := fun _ cmd => if cmd = "./avdmanager list avd" then some exampleListing else none
    installPackages := fun _ _ => false
    mkdirOk := fun _ => false }

/-! ## Basic lemmas about the cache and the locator -/

theorem pathJoin_ne_empty (parts : List String) : pathJoin parts ≠ "" := by
  simp only [pathJoin]
  split_ifs with h
  · decide
  · exact h

theorem cacheGet_insert (c : Cache) (k v k' : String) :
    cacheGet (cacheInsert c k v) k' = if k' = k then some v else cacheGet c k' := by
  unfold cacheGet cacheInsert
  by_cases h : k' = k
  · subst h
    rw [List.find?_cons_of_pos]
    · simp
    · simp
  · rw [List.find?_cons_of_neg]
    · simp [h]
    · simpa using fun hc => h hc.symm

theorem getBinaryLocation_fst (env : Env) (st : AndroidSetup) (b : String) :
    (getBinaryLocation env st b).1 = locateBinary env st.sdkRoot b := by
  simp only [getBinaryLocation, locateBinary]
  split_ifs <;> rfl

theorem getBinaryLocation_snd (env : Env) (st : AndroidSetup) (b : String) :
    (getBinaryLocation env st b).2 =
      if locateBinary env st.sdkRoot b = "" then st
      else { st with binaryLocation :=
              cacheInsert st.binaryLocation b (locateBinary env st.sdkRoot b) } := by
  simp only [getBinaryLocation, locateBinary]
  split_ifs <;> first
    | rfl
    | simp_all [pathJoin_ne_empty]

theorem getBinaryLocation_sdkRoot (env : Env) (st : AndroidSetup) (b : String) :
    (getBinaryLocation env st b).2.sdkRoot = st.sdkRoot := by
  rw [getBinaryLocation_snd]
  split_ifs <;> rfl

theorem getBinaryLocation_cacheGet (env : Env) (st : AndroidSetup) (b k : String) :
    cacheGet (getBinaryLocation env st b).2.binaryLocation k =
      if k = b ∧ locateBinary env st.sdkRoot b ≠ "" then some (locateBinary env st.sdkRoot b)
      else cacheGet st.binaryLocation k := by
  rw [getBinaryLocation_snd]
  split_ifs with h1 h2 h3
  · exact absurd h2.2 (by simp [h1])
  · rfl
  · simp only [cacheGet_insert, if_pos h3.1]
  · have : ¬ k = b := fun hc => h3 ⟨hc, h1⟩
    simp only [cacheGet_insert, if_neg this]

theorem getBinaryLocation_fail (env : Env) (st : AndroidSetup) (b : String)
    (h : (getBinaryLocation env st b).1 = "") : (getBinaryLocation env st b).2 = st := by
  rw [getBinaryLocation_fst] at h
  rw [getBinaryLocation_snd, if_pos h]

/-! ## The presence pass: output and cache characterisation -/

theorem checkBinariesPresent_sdkRoot (env : Env) (st : AndroidSetup) (bs : List String) :
    (checkBinariesPresent env st bs).2.sdkRoot = st.sdkRoot := by
  induction bs generalizing st with
  | nil => rfl
  | cons b rest ih =>
    simp only [checkBinariesPresent]
    rw [ih, getBinaryLocation_sdkRoot]

theorem checkBinariesPresent_fst (env : Env) (st : AndroidSetup) (bs : List String) :
    (checkBinariesPresent env st bs).1 =
      bs.filter (fun b => decide (locateBinary env st.sdkRoot b = "")) := by
  induction bs generalizing st with
  | nil => rfl
  | cons b rest ih =>
    simp only [checkBinariesPresent, List.filter]
    rw [ih, getBinaryLocation_sdkRoot, getBinaryLocation_fst]
    by_cases h : locateBinary env st.sdkRoot b = ""
    · simp [h]
    · simp [h]

theorem checkBinariesPresent_cacheGet (env : Env) (st : AndroidSetup) (bs : List String)
    (k : String) :
    cacheGet (checkBinariesPresent env st bs).2.binaryLocation k =
      if k ∈ bs ∧ locateBinary env st.sdkRoot k ≠ "" then some (locateBinary env st.sdkRoot k)
      else cacheGet st.binaryLocation k := by
  induction bs generalizing st with
  | nil => simp [checkBinariesPresent]
  | cons b rest ih =>
    simp only [checkBinariesPresent]
    rw [ih, getBinaryLocation_sdkRoot, getBinaryLocation_cacheGet]
    by_cases hm : k ∈ rest ∧ locateBinary env st.sdkRoot k ≠ ""
    · rw [if_pos hm, if_pos ⟨List.mem_cons_of_mem b hm.1, hm.2⟩]
    · rw [if_neg hm]
      by_cases hb : k = b ∧ locateBinary env st.sdkRoot b ≠ ""
      · rcases hb with ⟨rfl, hb2⟩
        rw [if_pos ⟨rfl, hb2⟩, if_pos ⟨List.mem_cons_self _ _, hb2⟩]
      · rw [if_neg hb]
        rw [if_neg]
        rintro ⟨hmem, hne⟩
        rcases List.mem_cons.mp hmem with rfl | hmem'
        · exact hb ⟨rfl, hne⟩
        · exact hm ⟨hmem', hne⟩

/-! ## The virtual-device pass -/

theorem verifyAvdPresent_fst (env : Env) (st : AndroidSetup) :
    (verifyAvdPresent env st).1 = avdPresentPure env st.sdkRoot := by
  simp only [verifyAvdPresent, avdPresentPure]
  rw [getBinaryLocation_fst]

theorem verifyAvdPresent_sdkRoot (env : Env) (st : AndroidSetup) :
    (verifyAvdPresent env st).2.sdkRoot = st.sdkRoot := by
  simp only [verifyAvdPresent]
  rw [getBinaryLocation_sdkRoot]

theorem verifyAvdPresent_cacheGet (env : Env) (st : AndroidSetup) (k : String) :
    cacheGet (verifyAvdPresent env st).2.binaryLocation k =
      if k = "avdmanager" ∧ locateBinary env st.sdkRoot "avdmanager" ≠ "" then
        some (locateBinary env st.sdkRoot "avdmanager")
      else cacheGet st.binaryLocation k := by
  simp only [verifyAvdPresent]
  rw [getBinaryLocation_cacheGet]

/-! ## The functional pass -/

theorem checkBinariesWorking_sdkRoot (env : Env) (st : AndroidSetup) (bs : List String) :
    (checkBinariesWorking env st bs).2.sdkRoot = st.sdkRoot := by
  induction bs generalizing st with
  | nil => rfl
  | cons b rest ih =>
    simp only [checkBinariesWorking]
    rcases hc : cacheGet st.binaryLocation b with _ | loc
    · simp only []
      split_ifs <;> rw [ih, getBinaryLocation_sdkRoot]
    · simp only []
      by_cases hl : loc = ""
      · simp only [if_pos hl]
        split_ifs <;> rw [ih, getBinaryLocation_sdkRoot]
      · simp only [if_neg hl]
        split_ifs <;> rw [ih]

/-- When every queried binary has a fresh, truthy cache entry pointing at
its located path, the functional pass neither changes the state nor
re-locates: its output is exactly the smoke-test filter. -/
theorem checkBinariesWorking_of_cached (env : Env) (st : AndroidSetup) (bs : List String)
    (h : ∀ b ∈ bs, cacheGet st.binaryLocation b = some (locateBinary env st.sdkRoot b) ∧
      locateBinary env st.sdkRoot b ≠ "") :
    checkBinariesWorking env st bs =
      (bs.filter (fun b =>
        decide (execBinary env (locateBinary env st.sdkRoot b) b (smokeCmd b) = "")), st) := by
  induction bs with
  | nil => rfl
  | cons b rest ih =>
    obtain ⟨hcb, hne⟩ := h b (List.mem_cons_self _ _)
    have hrest := ih (fun x hx => h x (List.mem_cons_of_mem b hx))
    simp only [checkBinariesWorking, hcb, List.filter]
    rw [if_neg hne, hrest]
    rw [if_neg hne]
    by_cases hw : execBinary env (locateBinary env st.sdkRoot b) b (smokeCmd b) = ""
    · simp [hw]
    · simp [hw]

/-! ## The bridge: the missing set is a pure function of environment,
SDK root and mode — the initial cache contents are irrelevant, because the
presence pass refreshes every entry the functional pass reads. -/

theorem verifySetup_fst (env : Env) (st : AndroidSetup) (cfg : SetupConfigs) :
    (verifySetup env st cfg).1 = verifyMissingPure env st.sdkRoot cfg.mode := by
  simp only [verifySetup, verifyMissingPure]
  generalize (if cfg.mode = some "real" then (["adb"] : List String)
      else ["adb", "avdmanager", "emulator"]) = bs
  have hroot : (checkBinariesPresent env st bs).2.sdkRoot = st.sdkRoot :=
    checkBinariesPresent_sdkRoot env st bs
  have havroot :
      (verifyAvdPresent env (checkBinariesPresent env st bs).2).2.sdkRoot = st.sdkRoot := by
    rw [verifyAvdPresent_sdkRoot, hroot]
  have hfilters : bs.filter
      (fun b => !((bs.filter (fun b => decide (locateBinary env st.sdkRoot b = ""))).contains b)) =
      bs.filter (fun b => decide (locateBinary env st.sdkRoot b ≠ "")) := by
    apply List.filter_congr 
    intro a ha
    by_cases h : locateBinary env st.sdkRoot a = ""
    · simp [List.elem_eq_mem, List.mem_filter, ha, h]
    · simp [List.elem_eq_mem, List.mem_filter, ha, h]
  have hcached : ∀ b ∈ bs.filter (fun b => decide (locateBinary env st.sdkRoot b ≠ "")),
      cacheGet (verifyAvdPresent env (checkBinariesPresent env st bs).2).2.binaryLocation b =
        some (locateBinary env
          (verifyAvdPresent env (checkBinariesPresent env st bs).2).2.sdkRoot b) ∧
      locateBinary env
          (verifyAvdPresent env (checkBinariesPresent env st bs).2).2.sdkRoot b ≠ "" := by
    intro b hb
    rw [List.mem_filter] at hb
    have hne : locateBinary env st.sdkRoot b ≠ "" := by simpa using hb.2
    rw [havroot]
    refine ⟨?_, hne⟩
    rw [verifyAvdPresent_cacheGet, hroot]
    by_cases hav : b = "avdmanager"
    · subst hav
      rw [if_pos ⟨rfl, hne⟩]
    · rw [if_neg (fun hc => hav hc.1)]
      rw [checkBinariesPresent_cacheGet, if_pos ⟨hb.1, hne⟩]
  simp only [checkBinariesPresent_fst]
  rw [hfilters]
  simp only [verifyAvdPresent_fst, checkBinariesPresent_sdkRoot]
  rw [checkBinariesWorking_of_cached env _ _ hcached]
  simp only [apply_ite Prod.fst, havroot]

theorem verifyAdbRunning_sdkRoot (env : Env) (st : AndroidSetup) :
    (verifyAdbRunning env st).sdkRoot = st.sdkRoot :=
  getBinaryLocation_sdkRoot env st "adb"

theorem verifySetup_sdkRoot (env : Env) (st : AndroidSetup) (cfg : SetupConfigs) :
    (verifySetup env st cfg).2.sdkRoot = st.sdkRoot := by
  simp only [verifySetup, apply_ite Prod.snd, apply_ite AndroidSetup.sdkRoot,
    verifyAdbRunning_sdkRoot, checkBinariesWorking_sdkRoot, verifyAvdPresent_sdkRoot,
    checkBinariesPresent_sdkRoot, ite_self]

/-- Each binary occurs at most once in the pure missing set. -/
theorem verifyMissingPure_count_le (env : Env) (r : String) (mode : Option String) (b : String)
    (hb : b ∈ (if mode = some "real" then (["adb"] : List String)
      else ["adb", "avdmanager", "emulator"])) :
    (verifyMissingPure env r mode).count b ≤ 1 := by
  have hmem3 : b = "adb" ∨ b = "avdmanager" ∨ b = "emulator" := by
    split_ifs at hb <;> simp_all
  have hnp : b ≠ "platforms" ∧ b ≠ NIGHTWATCH_AVD := by
    rcases hmem3 with rfl | rfl | rfl <;> exact ⟨by decide, by decide⟩
  have hnd : (if mode = some "real" then (["adb"] : List String)
      else ["adb", "avdmanager", "emulator"]).Nodup := by
    split_ifs <;> decide
  simp only [verifyMissingPure]
  generalize hg : (if mode = some "real" then (["adb"] : List String)
      else ["adb", "avdmanager", "emulator"]) = bs at hb hnd
  have hbs1 : bs.count b ≤ 1 := by
    rw [List.nodup_iff_count_le_one] at hnd
    exact hnd b
  have h1 : List.count b ["platforms"] = 0 := List.count_eq_zero.mpr (by simp [hnp.1])
  have h2 : List.count b [NIGHTWATCH_AVD] = 0 := List.count_eq_zero.mpr (by simp [hnp.2])
  by_cases hloc : locateBinary env r b = ""
  · have hpf0 : ((bs.filter (fun x => decide (locateBinary env r x ≠ ""))).filter
        (fun x => decide (execBinary env (locateBinary env r x) x (smokeCmd x) = ""))).count b
          = 0 := by
      rw [List.count_eq_zero]
      intro hc
      have := (List.mem_filter.mp (List.mem_filter.mp hc).1).2
      simp [hloc] at this
    have hm1 : (bs.filter (fun x => decide (locateBinary env r x = ""))).count b ≤ 1 :=
      le_trans (List.Sublist.count_le (List.filter_sublist bs) b) hbs1
    split_ifs <;>
      simp only [List.count_append, h1, h2, hpf0, hm1] <;>
      omega
  · have hm0 : (bs.filter (fun x => decide (locateBinary env r x = ""))).count b = 0 := by
      rw [List.count_eq_zero]
      intro hc
      exact hloc (by simpa using (List.mem_filter.mp hc).2)
    have hpf1 : ((bs.filter (fun x => decide (locateBinary env r x ≠ ""))).filter
        (fun x => decide (execBinary env (locateBinary env r x) x (smokeCmd x) = ""))).count b
          ≤ 1 := by
      refine le_trans (List.Sublist.count_le ?_ b) hbs1
      exact (List.filter_sublist _).trans (List.filter_sublist bs)
    split_ifs <;>
      simp only [List.count_append, h1, h2, hm0] <;>
      omega

/-! ## Helper lemmas for the claim theorems -/

theorem filter_filter_length_ne_zero (l : List String) (p q : String → Bool) :
    (((l.filter p).filter q).length != 0) = true ↔ ∃ x ∈ l, p x = true ∧ q x = true := by
  rw [bne_iff_ne]
  rw [show ((List.filter q (List.filter p l)).length ≠ 0 ↔
    ∃ x, x ∈ List.filter q (List.filter p l)) from by
      rw [← List.length_pos_iff_exists_mem]; omega]
  constructor
  · rintro ⟨x, hx⟩
    have h1 := List.mem_filter.mp hx
    have h2 := List.mem_filter.mp h1.1
    exact ⟨x, h2.1, h2.2, h1.2⟩
  · rintro ⟨x, hx, hp, hq⟩
    exact ⟨x, List.mem_filter.mpr ⟨List.mem_filter.mpr ⟨hx, hp⟩, hq⟩⟩

theorem cacheOk_insert (env : Env) (c : Cache) (k v : String) (h : cacheOk env c)
    (hv : v ≠ "" ∧ (v = "PATH" ∨ env.fsExists v = true)) : cacheOk env (cacheInsert c k v) := by
  intro p hp
  rcases List.mem_cons.mp hp with rfl | hp'
  · exact hv
  · exact h p hp'

theorem getBinaryLocation_cacheOk (env : Env) (st : AndroidSetup) (b : String)
    (h : cacheOk env st.binaryLocation) :
    cacheOk env (getBinaryLocation env st b).2.binaryLocation := by
  simp only [getBinaryLocation]
  split_ifs with h1 h2 h3 h4
  · exact cacheOk_insert _ _ _ _ h ⟨pathJoin_ne_empty _, Or.inr h1⟩
  · exact cacheOk_insert _ _ _ _ h ⟨pathJoin_ne_empty _, Or.inr h3⟩
  · exact cacheOk_insert _ _ _ _ h ⟨by decide, Or.inl rfl⟩
  · exact h
  · exact h

theorem checkBinariesPresent_cacheOk (env : Env) (bs : List String) :
    ∀ st : AndroidSetup, cacheOk env st.binaryLocation →
      cacheOk env (checkBinariesPresent env st bs).2.binaryLocation := by
  induction bs with
  | nil => exact fun st h => h
  | cons b rest ih =>
    intro st h
    simp only [checkBinariesPresent]
    exact ih _ (getBinaryLocation_cacheOk env st b h)

theorem checkBinariesWorking_cacheOk (env : Env) (bs : List String) :
    ∀ st : AndroidSetup, cacheOk env st.binaryLocation →
      cacheOk env (checkBinariesWorking env st bs).2.binaryLocation := by
  induction bs with
  | nil => exact fun st h => h
  | cons b rest ih =>
    intro st h
    simp only [checkBinariesWorking]
    rcases hc : cacheGet st.binaryLocation b with _ | loc
    · simp only []
      split_ifs <;> exact ih _ (getBinaryLocation_cacheOk env st b h)
    · simp only []
      by_cases hl : loc = ""
      · simp only [if_pos hl]
        split_ifs <;> exact ih _ (getBinaryLocation_cacheOk env st b h)
      · simp only [if_neg hl]
        split_ifs <;> exact ih _ h

theorem not_mem_removeFirst_self (l : List String) (x : String) (h : l.Nodup) :
    x ∉ removeFirst l x := by
  induction l with
  | nil => simp [removeFirst]
  | cons a rest ih =>
    simp only [removeFirst]
    rcases List.nodup_cons.mp h with ⟨hna, hnd⟩
    by_cases hax : a = x
    · subst hax
      rw [if_pos rfl]
      exact hna
    · rw [if_neg hax]
      intro hc
      rcases List.mem_cons.mp hc with heq | hc'
      · exact hax heq.symm
      · exact ih hnd hc'

/-! ## Claims C6, C7, C8, C9, C10 -/

/-- C6: calling `verifySetup` twice in the same run, against an unchanged
environment (same filesystem, PATH and external-binary behaviour, i.e. the
same `Env`), produces the same missing set both times: the missing set is a
function of environment, SDK root and mode only, and the first call changes
neither of those. -/
theorem c6_verify_idempotent (env : Env) (st : AndroidSetup) (cfg : SetupConfigs) :
    (verifySetup env (verifySetup env st cfg).2 cfg).1 = (verifySetup env st cfg).1 := by
  rw [verifySetup_fst, verifySetup_fst, verifySetup_sdkRoot]

/-- C7: each required binary contributes at most one entry to the missing
set of a single `verifySetup` run: a binary that failed the presence pass
is excluded from the functional pass, and the two passes contribute
disjoint entries. -/
theorem c7_at_most_one_entry_per_binary (env : Env) (st : AndroidSetup) (cfg : SetupConfigs)
    (b : String)
    (hb : b ∈ (if cfg.mode = some "real" then (["adb"] : List String)
      else ["adb", "avdmanager", "emulator"])) :
    ((verifySetup env st cfg).1).count b ≤ 1 := by
  rw [verifySetup_fst]
  exact verifyMissingPure_count_le env st.sdkRoot cfg.mode b hb

theorem c7_witness :
    "avdmanager" ∈ (if cfgEmulator.mode = some "real" then (["adb"] : List String)
      else ["adb", "avdmanager", "emulator"]) ∧
    ((verifySetup envFail st0 cfgEmulator).1).count "avdmanager" ≤ 1 :=
  ⟨by decide, c7_at_most_one_entry_per_binary envFail st0 cfgEmulator "avdmanager" (by decide)⟩

/-- C8: `verifyAvdPresent` splits the listing on the `'---------'` record
separator, discards records containing `'Error: '`, and returns true iff
some remaining record contains the fixed AVD name; in particular, on the
spec's example listing (an error record followed by a valid record naming
the AVD) it returns true. -/
theorem c8_verifyAvdPresent_parsing :
    (∀ (env : Env) (st : AndroidSetup),
      ((verifyAvdPresent env st).1 = true ↔
        ∃ record ∈ jsSplit (execBinary env (locateBinary env st.sdkRoot "avdmanager")
            "avdmanager" "list avd") "---------",
          jsIncludes record "Error: " = false ∧ jsIncludes record NIGHTWATCH_AVD = true)) ∧
    (verifyAvdPresent envListing st0).1 = true := by
  constructor
  · intro env st
    simp only [verifyAvdPresent, getBinaryLocation_fst]
    rw [filter_filter_length_ne_zero]
    constructor
    · rintro ⟨r, hr, hp, hq⟩
      exact ⟨r, hr, by simpa using hp, hq⟩
    · rintro ⟨r, hr, hp, hq⟩
      exact ⟨r, hr, by simpa using hp, hq⟩
  · decide

/-- C9: `execBinary` catches any launch failure or nonzero exit of the
underlying `execSync` call and normalises it to the empty string; being a
total function of the environment, it never propagates an exception. -/
theorem c9_execBinary_normalizes_failure (env : Env) (loc binaryName args : String)
    (h : ∀ cwd cmd, env.exec cwd cmd = none) :
    execBinary env loc binaryName args = "" := by
  simp only [execBinary]
  split_ifs <;> simp [h]

theorem c9_witness :
    (∀ cwd cmd, envFail.exec cwd cmd = none) ∧
    execBinary envFail "PATH" "adb" "--version" = "" :=
  ⟨fun _ _ => rfl, c9_execBinary_normalizes_failure envFail "PATH" "adb" "--version"
    (fun _ _ => rfl)⟩

/-- C10: the binary-location cache only ever maps a binary name to a truthy
location (the `'PATH'` sentinel or a path that existed when checked): a
failed lookup returns `''` without storing anything, and the cache-writing
operations (`getBinaryLocation` and the two passes built on it) preserve
the invariant. -/
theorem c10_cache_invariant_preserved (env : Env) (st : AndroidSetup)
    (h : cacheOk env st.binaryLocation) :
    (∀ b, cacheOk env (getBinaryLocation env st b).2.binaryLocation ∧
      ((getBinaryLocation env st b).1 = "" → (getBinaryLocation env st b).2 = st)) ∧
    (∀ bs, cacheOk env (checkBinariesPresent env st bs).2.binaryLocation) ∧
    (∀ bs, cacheOk env (checkBinariesWorking env st bs).2.binaryLocation) :=
  ⟨fun b => ⟨getBinaryLocation_cacheOk env st b h, getBinaryLocation_fail env st b⟩,
   fun bs => checkBinariesPresent_cacheOk env bs st h,
   fun bs => checkBinariesWorking_cacheOk env bs st h⟩

theorem c10_witness :
    cacheOk envFail st0.binaryLocation ∧
    cacheOk envFail (getBinaryLocation envFail st0 "adb").2.binaryLocation := by
  have h : cacheOk envFail st0.binaryLocation := by
    intro p hp
    simp [st0] at hp
  exact ⟨h, ((c10_cache_invariant_preserved envFail st0 h).1 "adb").1⟩

/-! ## Claim C1 (corrected) -/

/-- C1 (counterexample): on a host where nothing is installed, avdmanager
fails the presence pass, yet the virtual-device pass is not skipped: the
listing is still attempted (through the empty location, and fails), and
`NIGHTWATCH_AVD` is added to the missing set as an additional entry next to
`avdmanager` — contradicting the claim that the pass runs only if
avdmanager was located. -/
theorem c1_counterexample :
    locateBinary envFail st0.sdkRoot "avdmanager" = "" ∧
    "avdmanager" ∈ (verifySetup envFail st0 cfgEmulator).1 ∧
    NIGHTWATCH_AVD ∈ (verifySetup envFail st0 cfgEmulator).1 ∧
    (verifySetup envFail st0 cfgEmulator).1 =
      ["adb", "avdmanager", "emulator", "platforms", NIGHTWATCH_AVD] :=
  ⟨by decide, by decide, by decide, by decide⟩

/-- C1 (amended): the virtual-device pass always runs, whether or not
avdmanager was located.  When avdmanager is unlocated (in a non-real mode),
`avdmanager` is in the missing set, and `NIGHTWATCH_AVD` is additionally in
the missing set exactly when the still-executed listing reports the AVD
absent. -/
theorem c1_amended_avd_pass_always_runs (env : Env) (st : AndroidSetup) (cfg : SetupConfigs)
    (hmode : cfg.mode ≠ some "real")
    (hloc : locateBinary env st.sdkRoot "avdmanager" = "") :
    "avdmanager" ∈ (verifySetup env st cfg).1 ∧
    (NIGHTWATCH_AVD ∈ (verifySetup env st cfg).1 ↔ avdPresentPure env st.sdkRoot = false) := by
  rw [verifySetup_fst]
  simp only [verifyMissingPure]
  rw [if_neg hmode]
  have hmem : "avdmanager" ∈
      (["adb", "avdmanager", "emulator"] : List String).filter
        (fun b => decide (locateBinary env st.sdkRoot b = "")) :=
    List.mem_filter.mpr ⟨by decide, by simp [hloc]⟩
  have hnB : ∀ p : String → Bool,
      NIGHTWATCH_AVD ∉ (["adb", "avdmanager", "emulator"] : List String).filter p := by
    intro p hc
    have := (List.mem_filter.mp hc).1
    simp [NIGHTWATCH_AVD] at this
  have hnFF : ∀ p q : String → Bool, NIGHTWATCH_AVD ∉
      ((["adb", "avdmanager", "emulator"] : List String).filter p).filter q :=
    fun p q hc => hnB p (List.mem_filter.mp hc).1
  have hnPl : NIGHTWATCH_AVD ∉ (["platforms"] : List String) := by decide
  refine ⟨?_, ?_⟩
  · split_ifs <;> simp [List.mem_append, hmem]
  · split_ifs <;> simp_all [List.mem_append, NIGHTWATCH_AVD]

theorem c1_witness :
    cfgEmulator.mode ≠ some "real" ∧
    locateBinary envFail st0.sdkRoot "avdmanager" = "" ∧
    ("avdmanager" ∈ (verifySetup envFail st0 cfgEmulator).1 ∧
      (NIGHTWATCH_AVD ∈ (verifySetup envFail st0 cfgEmulator).1 ↔
        avdPresentPure envFail st0.sdkRoot = false)) :=
  ⟨by decide, by decide,
   c1_amended_avd_pass_always_runs envFail st0 cfgEmulator (by decide) (by decide)⟩

/-! ## Claim C2 (corrected) -/

/-- C2 (counterexample): with `ANDROID_HOME` set to a path that does not
exist on the filesystem, `run` does not terminate with failure before the
checks: it performs full requirement checking (second component `true`)
and here even returns overall success — `getSdkRoot` only tests that the
variable is a non-empty string, never that the path exists. -/
theorem c2_counterexample :
    envPathOnly.fsExists "/nonexistent/sdk" = false ∧
    run envPathOnly (some "/nonexistent/sdk") { help := false, setup := false } cfgReal =
      (true, true) :=
  ⟨by decide, by decide⟩

/-- C2 (amended): `run` terminates with failure before any requirement
checking iff `ANDROID_HOME` is unset or the empty string (help not
requested); any other value — existing on the filesystem or not — is
accepted and requirement checking proceeds. -/
theorem c2_amended_sdk_root_gate (env : Env) (androidHome : Option String) (opts : Options)
    (cfg : SetupConfigs) (hh : opts.help = false) :
    ((androidHome = none ∨ androidHome = some "") →
      run env androidHome opts cfg = (false, false)) ∧
    (∀ home, androidHome = some home → home ≠ "" →
      (run env androidHome opts cfg).2 = true) := by
  constructor
  · rintro (rfl | rfl) <;> simp [run, getSdkRoot, hh]
  · rintro home rfl hne
    simp only [run, getSdkRoot, hh, Bool.false_eq_true, if_false, if_neg hne]
    split_ifs <;> rfl

theorem c2_witness :
    ({ help := false, setup := false } : Options).help = false ∧
    run envFail none { help := false, setup := false } cfgReal = (false, false) ∧
    (run envFail (some "/nonexistent/sdk") { help := false, setup := false } cfgReal).2 = true :=
  ⟨rfl,
   (c2_amended_sdk_root_gate envFail none { help := false, setup := false } cfgReal rfl).1
     (Or.inl rfl),
   (c2_amended_sdk_root_gate envFail (some "/nonexistent/sdk")
     { help := false, setup := false } cfgReal rfl).2 "/nonexistent/sdk" rfl (by decide)⟩

/-! ## Claim C4 (corrected) -/

/-- C4 (counterexample): the `platforms`-directory creation step fails
(`mkdirSync` throws), yet the overall result is success — the empty
`catch {}` swallows the failure, so not *every* queued step's failure makes
the result a failure, contrary to the claim. -/
theorem c4_counterexample :
    SetupAction.createPlatformsDir false ∈
      (setupAndroid envMkdirFails st0 cfgEmulator ["platforms"]).2.1 ∧
    (setupAndroid envMkdirFails st0 cfgEmulator ["platforms"]).1 = true :=
  ⟨by decide, by decide⟩

/-- C4 (amended): the executor's boolean result is success iff the queued
package-installation step and (when attempted) the virtual-device-creation
step succeeded; `platforms`-directory creation failures and the bootstrap
download are ignored by the result, and later steps still run after a
failure (the step trace is produced in full either way). -/
theorem c4_amended_result_iff_steps_ok (env : Env) (st : AndroidSetup) (cfg : SetupConfigs)
    (missing : List String) :
    (setupAndroid env st cfg missing).1 =
      (setupAndroid env st cfg missing).2.1.all actionOk := by
  simp only [setupAndroid]
  split_ifs <;> simp_all [actionOk, List.all_append, List.all_cons, List.all_nil]

/-! ## Claim C5 (confirmed) -/

/-- C5: whenever remediation runs and avdmanager is in the missing set, or
the sdkmanager functional check fails, the cmdline-tools bootstrap action
is queued and avdmanager is removed from the missing set before the
package filter, so no package-install request ever lists avdmanager as a
requirement. -/
theorem c5_bootstrap_supersedes_avdmanager (env : Env) (st : AndroidSetup) (cfg : SetupConfigs)
    (missing : List String) (hnd : missing.Nodup)
    (h : "avdmanager" ∈ missing ∨
      (missing ≠ [] ∧ (checkBinariesWorking env st ["sdkmanager"]).1 ≠ [])) :
    SetupAction.bootstrapCmdlineTools ∈ (setupAndroid env st cfg missing).2.1 ∧
    (∀ reqs pkgs ok,
      SetupAction.installPackages reqs pkgs ok ∈ (setupAndroid env st cfg missing).2.1 →
        "avdmanager" ∉ reqs) := by
  have hne : missing ≠ [] := by
    rcases h with hm | ⟨hne, _⟩
    · exact List.ne_nil_of_mem hm
    · exact hne
  have hboot : ¬((checkBinariesWorking env st ["sdkmanager"]).1.length = 0) ∨
      missing.contains "avdmanager" = true := by
    rcases h with hm | ⟨_, hw⟩
    · exact Or.inr (by simpa [List.elem_eq_mem] using hm)
    · refine Or.inl ?_
      intro hc
      exact hw (List.length_eq_zero.mp hc)
  have hnotin : "avdmanager" ∉ removeFirst missing "avdmanager" :=
    not_mem_removeFirst_self missing "avdmanager" hnd
  simp only [setupAndroid]
  rw [if_neg (by simpa [List.length_eq_zero] using hne)]
  rw [if_pos hboot, if_pos hboot]
  constructor
  · split_ifs <;> simp [List.mem_append]
  · intro reqs pkgs ok hm hcontra
    split_ifs at hm <;>
      simp at hm <;>
      (obtain ⟨hr, -, -⟩ := hm
       subst hr
       exact hnotin (List.mem_filter.mp hcontra).1)

theorem c5_witness :
    SetupAction.bootstrapCmdlineTools ∈
      (setupAndroid envFail st0 cfgEmulator ["avdmanager"]).2.1 ∧
    (∀ reqs pkgs ok,
      SetupAction.installPackages reqs pkgs ok ∈
          (setupAndroid envFail st0 cfgEmulator ["avdmanager"]).2.1 →
        "avdmanager" ∉ reqs) :=
  c5_bootstrap_supersedes_avdmanager envFail st0 cfgEmulator ["avdmanager"]
    (by decide) (Or.inl (by decide))

/-! ## Claim C3 (corrected) -/

/-- C3 (counterexample): for the missing set `{platforms, NIGHTWATCH_AVD}`
(on a host with a working sdkmanager and no AVD in the listing), the
executed plan does contain exactly one create-platforms-directory action
and one create-virtual-device action — but not zero package-install
requests: the virtual-device identifier maps to its backing system-image
package, which is queued for installation. -/
theorem c3_counterexample :
    (setupAndroid envSdkOk st0 cfgEmulator ["platforms", NIGHTWATCH_AVD]).2.1 =
      [SetupAction.installPackages [NIGHTWATCH_AVD]
        ["system-images;android-30;google_apis;x86_64"] true,
       SetupAction.createPlatformsDir true,
       SetupAction.createAvd true] := by
  decide

/-- C3 (amended): for the missing set `{platforms, NIGHTWATCH_AVD}`, when
the sdkmanager functional check passes and the AVD is still absent at the
execution-time re-check, the plan consists of exactly one package-install
request — the AVD's backing system image — plus exactly one
create-platforms-directory action and one create-virtual-device action (no
bootstrap). -/
theorem c3_amended_plan_shape (env : Env) (st : AndroidSetup) (cfg : SetupConfigs)
    (hsdk : (checkBinariesWorking env st ["sdkmanager"]).1 = [])
    (havd : avdPresentPure env st.sdkRoot = false) :
    ∃ ok1 ok2 ok3,
      (setupAndroid env st cfg ["platforms", NIGHTWATCH_AVD]).2.1 =
        [SetupAction.installPackages [NIGHTWATCH_AVD]
          ["system-images;android-30;google_apis;" ++ env.abi] ok1,
         SetupAction.createPlatformsDir ok2,
         SetupAction.createAvd ok3] := by
  simp only [setupAndroid, hsdk]
  rw [if_neg (by decide : ¬(["platforms", NIGHTWATCH_AVD] : List String).length = 0)]
  have hboot : ¬(¬(List.length ([] : List String) = 0) ∨
      (["platforms", NIGHTWATCH_AVD] : List String).contains "avdmanager" = true) := by decide
  rw [if_neg hboot, if_neg hboot]
  have havd' : (verifyAvdPresent env
      (getBinaryLocation env (checkBinariesWorking env st ["sdkmanager"]).2 "sdkmanager").2).1 =
        false := by
    rw [verifyAvdPresent_fst, getBinaryLocation_sdkRoot, checkBinariesWorking_sdkRoot]
    exact havd
  rw [if_pos (by decide : (["platforms", NIGHTWATCH_AVD] : List String).contains "platforms"
    = true)]
  rw [if_neg (by simp [havd'])]
  simp only [BINARY_TO_PACKAGE_NAME, NIGHTWATCH_AVD, List.find?, List.map, List.filter,
    List.contains, List.elem, decide_True, decide_False, String.reduceEq, Option.map,
    Option.getD, List.nil_append, List.cons_append, List.append_nil]
  exact ⟨_, _, _, rfl⟩

theorem c3_witness :
    (checkBinariesWorking envSdkOk st0 ["sdkmanager"]).1 = [] ∧
    avdPresentPure envSdkOk st0.sdkRoot = false ∧
    ∃ ok1 ok2 ok3,
      (setupAndroid envSdkOk st0 cfgEmulator ["platforms", NIGHTWATCH_AVD]).2.1 =
        [SetupAction.installPackages [NIGHTWATCH_AVD]
          ["system-images;android-30;google_apis;" ++ envSdkOk.abi] ok1,
         SetupAction.createPlatformsDir ok2,
         SetupAction.createAvd ok3] :=
  ⟨by decide, by decide,
   c3_amended_plan_shape envSdkOk st0 cfgEmulator (by decide) (by decide)⟩
